import Mathlib

/-
Verification of python_dict_wrapper (python_dict_wrapper.py) against its
natural-language specification.

The module is embedded shallowly: Python objects live in an explicit heap
(addresses to dict/list objects), scalars are immediate values, and every
operation of the module (wrap, unwrap, DictWrapper.__getattr__,
DictWrapper.__setattr__, DictWrapper._fix_key, ListWrapper and its inherited
list.__iadd__, add_attribute, del_attribute) is translated into a Lean
function over that heap.
-/

namespace PyDictWrapper

/-- Heap addresses. Every Python dict or list object is identified by an
address; aliasing two proxies over the same container is sharing an address. -/
abbrev Addr := Nat

/-- Python values as they occur inside JSON-shaped data: scalars are
immediate, compound values (dict, list) are references into the heap. -/
inductive PyVal where
  | noneV : PyVal
  | boolV : Bool → PyVal
  | intV : Int → PyVal
  | strV : String → PyVal
  | ref : Addr → PyVal
deriving DecidableEq, Repr

/-- Heap objects: a Python dict is an insertion-ordered association list
from string keys to values, a Python list is a sequence of values. -/
inductive PyObj where
  | dict : List (String × PyVal) → PyObj
  | list : List PyVal → PyObj
deriving DecidableEq, Repr

/-- The heap: an association list from addresses to objects. -/
abbrev Heap := List (Addr × PyObj)

/-- Look up an address in the heap (first binding wins). -/
def heapGet : Heap → Addr → Option PyObj
  | [], _ => Option.none
  | (a1, o) :: rest, a => if a1 = a then Option.some o else heapGet rest a

/-- Replace the object stored at an address by applying a function to it
(first binding; other addresses untouched). -/
def heapMod : Heap → Addr → (PyObj → PyObj) → Heap
  | [], _, _ => []
  | (a1, o) :: rest, a, f =>
      if a1 = a then (a1, f o) :: rest else (a1, o) :: heapMod rest a f

/-- Python dict lookup `d[k]` as an Option (first entry with the key; a
Python dict never holds a duplicate key). -/
def dictLookup : List (String × PyVal) → String → Option PyVal
  | [], _ => Option.none
  | (k1, v1) :: rest, k => if k1 = k then Option.some v1 else dictLookup rest k

/-- Python dict assignment `d[k] = v`: update the existing entry in place
(keeping its position, as Python dicts do) or append a new entry. -/
def dictSet : List (String × PyVal) → String → PyVal → List (String × PyVal)
  | [], k, v => [(k, v)]
  | (k1, v1) :: rest, k, v =>
      if k1 = k then (k, v) :: rest else (k1, v1) :: dictSet rest k v

/-- Python `del d[k]`: remove the entry with the key (first occurrence; a
Python dict never holds a duplicate key). -/
def dictDel : List (String × PyVal) → String → List (String × PyVal)
  | [], _ => []
  | (k1, v1) :: rest, k => if k1 = k then rest else (k1, v1) :: dictDel rest k

/-- Value stored at key `k` of the dict object at address `a`. -/
def dictLookupAt (h : Heap) (a : Addr) (k : String) : Option PyVal :=
  match heapGet h a with
  | Option.some (PyObj.dict l) => dictLookup l k
  | _ => Option.none

/-- Python `k in d` for the dict object at address `a`. -/
def dictHasKeyAt (h : Heap) (a : Addr) (k : String) : Bool :=
  (dictLookupAt h a k).isSome

/-- Heap update `h[a][k] = v` for a dict object at `a`. -/
def heapDictSet (h : Heap) (a : Addr) (k : String) (v : PyVal) : Heap :=
  heapMod h a (fun o =>
    match o with
    | PyObj.dict l => PyObj.dict (dictSet l k v)
    | other => other)

/-- Heap update `del h[a][k]` for a dict object at `a`. -/
def heapDictDel (h : Heap) (a : Addr) (k : String) : Heap :=
  heapMod h a (fun o =>
    match o with
    | PyObj.dict l => PyObj.dict (dictDel l k)
    | other => other)

/-- Items of the list object at address `a` (empty when `a` does not hold a
list; every caller in this development passes a list address). -/
def heapListItems (h : Heap) (a : Addr) : List PyVal :=
  match heapGet h a with
  | Option.some (PyObj.list items) => items
  | _ => []

/-- Runtime classes of the modeled values, as used by `isinstance` and by
`value.__class__` in the strict check of DictWrapper.__setattr__. -/
inductive PyClass where
  | noneType | boolC | intC | strC | dictC | listC
deriving DecidableEq, Repr

/-- Python `cls.__name__` for the modeled classes. -/
def clsName : PyClass → String
  | PyClass.noneType => "NoneType"
  | PyClass.boolC => "bool"
  | PyClass.intC => "int"
  | PyClass.strC => "str"
  | PyClass.dictC => "dict"
  | PyClass.listC => "list"

/-- Runtime class of a value (`value.__class__`). A reference takes the
class of the heap object it points to; a dangling reference (unreachable in
any state this development constructs) is given `noneType`. -/
def PyVal.cls (h : Heap) : PyVal → PyClass
  | PyVal.noneV => PyClass.noneType
  | PyVal.boolV _ => PyClass.boolC
  | PyVal.intV _ => PyClass.intC
  | PyVal.strV _ => PyClass.strC
  | PyVal.ref a =>
      match heapGet h a with
      | Option.some (PyObj.dict _) => PyClass.dictC
      | Option.some (PyObj.list _) => PyClass.listC
      | Option.none => PyClass.noneType

/-- Python `isinstance(v, c)` over the modeled classes. Among these classes
the only proper subclass relation in Python is `bool` being a subclass of
`int`, so a bool value is an instance of `int`. -/
def isinstance (h : Heap) (v : PyVal) (c : PyClass) : Bool :=
  (PyVal.cls h v == c) || (PyVal.cls h v == PyClass.boolC && c == PyClass.intC)

/-- Python truthiness `bool(v)`: None and zero and empty containers are
false; a dangling reference (unreachable) is true. -/
def truthy (h : Heap) : PyVal → Bool
  | PyVal.noneV => false
  | PyVal.boolV b => b
  | PyVal.intV n => !(n == 0)
  | PyVal.strV s => !(s == "")
  | PyVal.ref a =>
      match heapGet h a with
      | Option.some (PyObj.dict l) => !l.isEmpty
      | Option.some (PyObj.list l) => !l.isEmpty
      | Option.none => true

/-- Python percent-s formatting of a value, as used by
`"%s%s" % (prefix, key)` in DictWrapper._fix_key. None formats as the
string None. No claim consumes the formatting of a compound object, so a
reference formats as a placeholder. -/
def pyFmt (_h : Heap) : PyVal → String
  | PyVal.noneV => "None"
  | PyVal.boolV true => "True"
  | PyVal.boolV false => "False"
  | PyVal.intV n => toString n
  | PyVal.strV s => s
  | PyVal.ref _ => "<object>"

/-- The `key_prefix` argument of wrap, DictWrapper and ListWrapper: the
Python default None, a single prefix string, or a list of prefixes. A list
element is modeled by its percent-s formatting (the only way the code ever
consumes it), so a None element of a list argument is the string None. -/
inductive KeyPrefixArg where
  | noneArg : KeyPrefixArg
  | strArg : String → KeyPrefixArg
  | listArg : List String → KeyPrefixArg
deriving DecidableEq, Repr

/-- DictWrapper.__init__ line
`self.__key_prefixes__ = key_prefix if isinstance(key_prefix, list) else [key_prefix]`:
a list argument is stored as is; any other argument is wrapped in a
one-element list, so the default None is stored as the list holding None,
whose element percent-s-formats as the string None. The stored attribute is
always a list after __init__; the None alternative of the Option is
reachable only by a direct write to `__key_prefixes__`
(see DictWrapper.setattr). -/
def normalizePrefixes : KeyPrefixArg → Option (List String)
  | KeyPrefixArg.listArg ps => Option.some ps
  | KeyPrefixArg.noneArg => Option.some ["None"]
  | KeyPrefixArg.strArg s => Option.some [s]

/-- State of a DictWrapper instance: the four attributes set by __init__.
`private_data` is the address of the wrapped dict (`__private_data__`),
shared, never copied. -/
structure DictWrapper where
  private_data : Addr
  strict : Bool
  key_prefixes : Option (List String)
  mutable : Bool
deriving DecidableEq, Repr

/-- DictWrapper.__init__(data, strict=False, key_prefix=None, mutable=True). -/
def DictWrapper.init (data : Addr) (strict : Bool) (key_prefix_arg : KeyPrefixArg)
    (mutable : Bool) : DictWrapper :=
  { private_data := data, strict := strict,
    key_prefixes := normalizePrefixes key_prefix_arg, mutable := mutable }

/-- The four attribute names that DictWrapper.__setattr__ routes to the
instance itself (`super().__setattr__`) instead of the wrapped dict. -/
def internalNames : List String :=
  ["__private_data__", "__strict__", "__key_prefixes__", "__mutable__"]

/-- Attribute names that ordinary Python attribute lookup finds on a
DictWrapper instance without ever consulting __getattr__: the methods
defined in the class body and the attributes every object inherits (the
list mirrors the repository's own __dir__ expectation). A read of such a
name yields the bound method or object metadata, never the dict-backed
lookup; DictWrapper.getattr below embeds __getattr__ itself, which Python
invokes only after ordinary lookup fails, so statements about attribute
reads exclude these names by hypothesis. Plain attribute writes are not
affected: __setattr__ is invoked for every assignment, so only the four
internal names bypass the dict path on write. -/
def classAttributeNames : List String :=
  ["to_dict", "to_json", "_fix_key", "_check_for_bad_attribute",
   "__init__", "__dir__", "__getattr__", "__setattr__", "__getattribute__",
   "__class__", "__dict__", "__doc__", "__module__", "__weakref__",
   "__eq__", "__ne__", "__hash__", "__repr__", "__str__", "__format__",
   "__sizeof__", "__reduce__", "__reduce_ex__", "__delattr__", "__new__",
   "__init_subclass__", "__subclasshook__", "__ge__", "__gt__", "__le__",
   "__lt__"]

/-- Loop body of DictWrapper._fix_key: for each configured prefix in order,
return `prefix + key` if that string is a key of the wrapped dict, else fall
through; return `key` itself when no prefix matches. -/
def fixKeyLoop (h : Heap) (d : Addr) (key : String) : List String → String
  | [] => key
  | p :: rest =>
      if dictHasKeyAt h d (p ++ key) then p ++ key else fixKeyLoop h d key rest

/-- DictWrapper._fix_key: the guard `if self.__key_prefixes__ is None`
returns the key unchanged, but __init__ always stores a list (the default
None argument becomes the one-element list holding None), so that guard is
reachable only after a direct write of None to `__key_prefixes__`. -/
def DictWrapper.fix_key (w : DictWrapper) (h : Heap) (key : String) : String :=
  match w.key_prefixes with
  | Option.none => key
  | Option.some ps => fixKeyLoop h w.private_data key ps

/-- Passing `self.__key_prefixes__` onward as the `key_prefix` argument of a
child wrapper: the stored list is passed as a list argument, and a stored
None (possible only after a direct attribute write) is passed as None. -/
def childArg : Option (List String) → KeyPrefixArg
  | Option.none => KeyPrefixArg.noneArg
  | Option.some l => KeyPrefixArg.listArg l

/-- State of a ListWrapper instance. ListWrapper subclasses the built-in
list: `super().__init__(data)` copies the current items of `data` into the
instance's own list storage (`selfItems`), while `__private_data__` keeps
the address of the original list. -/
structure ListWrapper where
  selfItems : List PyVal
  private_data : Addr
  strict : Bool
  prefix_arg : KeyPrefixArg
  mutable : Bool
deriving DecidableEq, Repr

/-- ListWrapper.__init__(data, strict=False, key_prefix=None, mutable=True).
Unlike DictWrapper, the `key_prefix` argument is stored raw (no
normalization); it is normalized only when a child DictWrapper is built. -/
def ListWrapper.init (h : Heap) (data : Addr) (strict : Bool)
    (key_prefix_arg : KeyPrefixArg) (mutable : Bool) : ListWrapper :=
  { selfItems := heapListItems h data, private_data := data, strict := strict,
    prefix_arg := key_prefix_arg, mutable := mutable }

/-- Python exceptions raised by the module, by site. -/
inductive PyErr where
  /-- AttributeError raised by _check_for_bad_attribute, carrying the class
  name and the resolved key of the message. -/
  | noAttribute : String → String → PyErr
  /-- AttributeError with message: cant set attribute (the immutability
  gate of __setattr__, append, remove, __setitem__). -/
  | cantSetAttribute : PyErr
  /-- TypeError raised by the strict check of __setattr__, carrying the
  key, the stored class name and the offered class name of the message. -/
  | badValueType : String → String → String → PyErr
  /-- AttributeError raised while wrap (or add_attribute, del_attribute)
  formats its intended TypeError message: the format string accesses
  `data.__class__.__name___` with a trailing triple underscore, an
  attribute no class has, so an AttributeError escapes and the TypeError
  is never constructed. -/
  | nameFormatAttrError : PyErr
  /-- KeyError from indexing the wrapped dict with an absent key
  (del_attribute reading `wrapper.__private_data__[attribute]`). -/
  | keyError : String → PyErr
deriving DecidableEq, Repr

/-- Python class of each raised exception. -/
def PyErr.pyClassOf : PyErr → String
  | PyErr.noAttribute _ _ => "AttributeError"
  | PyErr.cantSetAttribute => "AttributeError"
  | PyErr.badValueType _ _ _ => "TypeError"
  | PyErr.nameFormatAttrError => "AttributeError"
  | PyErr.keyError _ => "KeyError"

/-- Result of an attribute or item read: a scalar as is, or a freshly
constructed wrapper over the nested compound value. -/
inductive RtVal where
  | plain : PyVal → RtVal
  | dwrap : DictWrapper → RtVal
  | lwrap : ListWrapper → RtVal
deriving DecidableEq, Repr

/-- The underlying plain value a read result denotes: a wrapper denotes the
reference it wraps, a scalar denotes itself. -/
def RtVal.underlying : RtVal → PyVal
  | RtVal.plain v => v
  | RtVal.dwrap w => PyVal.ref w.private_data
  | RtVal.lwrap lw => PyVal.ref lw.private_data

/-- DictWrapper.__getattr__: resolve the key with _fix_key, fail with
AttributeError when the resolved key is absent, wrap a dict value in a new
DictWrapper and a list value in a new ListWrapper (forwarding strict,
__key_prefixes__ and mutable), and return a scalar as is. -/
def DictWrapper.getattr (w : DictWrapper) (h : Heap) (key : String) :
    Except PyErr RtVal :=
  let k := DictWrapper.fix_key w h key
  match dictLookupAt h w.private_data k with
  | Option.none => Except.error (PyErr.noAttribute "DictWrapper" k)
  | Option.some v =>
      match v with
      | PyVal.ref a =>
          match heapGet h a with
          | Option.some (PyObj.dict _) =>
              Except.ok (RtVal.dwrap
                (DictWrapper.init a w.strict (childArg w.key_prefixes) w.mutable))
          | Option.some (PyObj.list _) =>
              Except.ok (RtVal.lwrap
                (ListWrapper.init h a w.strict (childArg w.key_prefixes) w.mutable))
          | Option.none => Except.ok (RtVal.plain v)
      | other => Except.ok (RtVal.plain other)

/-- Effect of `super().__setattr__(name, value)` for the four internal
names: the instance attribute is overwritten with the assigned object.
The fields of this embedding are typed, so the assigned object is decoded:
truthiness for the two boolean attributes (they are only ever read in
boolean position), the referenced address for `__private_data__`, and for
`__key_prefixes__` either None (which re-enables the otherwise dead
`is None` guard of _fix_key) or a list of prefixes by their formatting.
An assignment whose value cannot be decoded leaves the field; in Python
such a state makes every later operation raise and is outside the states
this development reasons about. -/
def DictWrapper.assignInternal (w : DictWrapper) (h : Heap) (key : String)
    (value : PyVal) : DictWrapper :=
  if key = "__private_data__" then
    match value with
    | PyVal.ref a => { w with private_data := a }
    | _ => w
  else if key = "__strict__" then { w with strict := truthy h value }
  else if key = "__key_prefixes__" then
    match value with
    | PyVal.noneV => { w with key_prefixes := Option.none }
    | PyVal.ref a =>
        match heapGet h a with
        | Option.some (PyObj.list items) =>
            { w with key_prefixes := Option.some (items.map (pyFmt h)) }
        | _ => w
    | _ => w
  else { w with mutable := truthy h value }

/-- DictWrapper.__setattr__: one of the four internal names is stored on
the instance itself and returns at once (no immutability, existence or
strictness check, no touch of the wrapped dict); otherwise the immutability
gate fires first, the key is resolved with _fix_key, an absent resolved key
raises AttributeError before any mutation, the strict check compares the
assigned value against the class of the stored value with isinstance, and
only then is the wrapped dict updated. -/
def DictWrapper.setattr (w : DictWrapper) (h : Heap) (key : String)
    (value : PyVal) : Except PyErr (DictWrapper × Heap) :=
  if key ∈ internalNames then
    Except.ok (DictWrapper.assignInternal w h key value, h)
  else if w.mutable = false then
    Except.error PyErr.cantSetAttribute
  else
    let k := DictWrapper.fix_key w h key
    match dictLookupAt h w.private_data k with
    | Option.none => Except.error (PyErr.noAttribute "DictWrapper" k)
    | Option.some stored =>
        if w.strict && !(isinstance h value (PyVal.cls h stored)) then
          Except.error (PyErr.badValueType k (clsName (PyVal.cls h stored))
            (clsName (PyVal.cls h value)))
        else
          Except.ok (w, heapDictSet h w.private_data k value)

/-- DictWrapper.to_dict: returns the wrapped dict reference itself, no copy. -/
def DictWrapper.to_dict (w : DictWrapper) : PyVal :=
  PyVal.ref w.private_data

/-- ListWrapper.to_list: returns the wrapped list reference itself, no copy. -/
def ListWrapper.to_list (lw : ListWrapper) : PyVal :=
  PyVal.ref lw.private_data

/-- ListWrapper defines no __iadd__, __add__ or extend override, so
`proxy += other` runs the built-in list.__iadd__: it extends the instance's
own list storage in place (without calling the overridden append) and never
touches `__private_data__`. The heap is returned unchanged. -/
def ListWrapper.iadd (lw : ListWrapper) (h : Heap) (extra : List PyVal) :
    ListWrapper × Heap :=
  ({ lw with selfItems := lw.selfItems ++ extra }, h)

/-- Result of wrap: a DictWrapper or a ListWrapper. -/
inductive Wrapped where
  | dw : DictWrapper → Wrapped
  | lw : ListWrapper → Wrapped
deriving DecidableEq, Repr

/-- View of a wrap result as a read result. -/
def Wrapped.rt : Wrapped → RtVal
  | Wrapped.dw w => RtVal.dwrap w
  | Wrapped.lw l => RtVal.lwrap l

/-- wrap(data, strict=False, key_prefix=None, mutable=True): a DictWrapper
over a dict, a ListWrapper over a list. For anything else the code executes
`raise TypeError(... % data.__class__.__name___)`: evaluating the message
accesses the nonexistent attribute `__name___` (trailing triple
underscore), so an AttributeError is raised and the TypeError never is. -/
def wrap (h : Heap) (data : PyVal) (strict : Bool) (key_prefix_arg : KeyPrefixArg)
    (mutable : Bool) : Except PyErr Wrapped :=
  match data with
  | PyVal.ref a =>
      match heapGet h a with
      | Option.some (PyObj.dict _) =>
          Except.ok (Wrapped.dw (DictWrapper.init a strict key_prefix_arg mutable))
      | Option.some (PyObj.list _) =>
          Except.ok (Wrapped.lw (ListWrapper.init h a strict key_prefix_arg mutable))
      | Option.none => Except.error PyErr.nameFormatAttrError
  | _ => Except.error PyErr.nameFormatAttrError

/-- unwrap(wrapper): to_dict of a DictWrapper, to_list of a ListWrapper,
anything else returned unchanged. -/
def unwrap : RtVal → PyVal
  | RtVal.dwrap w => DictWrapper.to_dict w
  | RtVal.lwrap lw => ListWrapper.to_list lw
  | RtVal.plain v => v

/-- add_attribute(wrapper, attribute, value): after the isinstance guard it
runs `wrapper.__private_data__[attribute] = value` — the literal attribute
name, with no _fix_key resolution and no immutability or strictness gate. -/
def add_attribute (w : DictWrapper) (h : Heap) (attr : String)
    (value : PyVal) : Heap :=
  heapDictSet h w.private_data attr value

/-- del_attribute(wrapper, attribute): reads
`wrapper.__private_data__[attribute]` (KeyError on an absent literal key,
no _fix_key resolution), deletes that key and returns the removed value. -/
def del_attribute (w : DictWrapper) (h : Heap) (attr : String) :
    Except PyErr (PyVal × Heap) :=
  match dictLookupAt h w.private_data attr with
  | Option.none => Except.error (PyErr.keyError attr)
  | Option.some v => Except.ok (v, heapDictDel h w.private_data attr)

/-- A DictWrapper instance at a comparison site: the instance identity (two
calls of the constructor produce two distinct identities even over the same
dict) together with its state. -/
structure DWInstance where
  id : Nat
  wrapper : DictWrapper
deriving DecidableEq, Repr

/-- Python equality between two DictWrapper instances. DictWrapper defines
__init__, __dir__, __getattr__, __setattr__, _fix_key,
_check_for_bad_attribute, to_dict and to_json and nothing else — in
particular no __eq__ — so object.__eq__ applies: the comparison is true
exactly when both operands are the same instance. -/
def dwEqDW (x y : DWInstance) : Bool :=
  x.id == y.id

/-- Python equality between a DictWrapper instance and a value that is not
a DictWrapper (a bare dict, a scalar, a list). DictWrapper defines no
__eq__, so object.__eq__ answers NotImplemented for a non-identical
operand; the reflected operand (dict, int, ...) knows nothing of
DictWrapper and also answers NotImplemented; Python then falls back to
identity, which fails, so the comparison is false. -/
def dwEqOther (_x : DWInstance) (_v : PyVal) : Bool :=
  false


/-- Looking up the key just set yields the value just set. -/
theorem dictLookup_dictSet_self (l : List (String × PyVal)) (k : String) (v : PyVal) :
    dictLookup (dictSet l k v) k = Option.some v := by
  induction l with
  | nil => simp [dictSet, dictLookup]
  | cons p rest ih =>
      obtain ⟨k1, v1⟩ := p
      by_cases hk : k1 = k
      · simp [dictSet, hk, dictLookup]
      · simp [dictSet, hk, dictLookup, ih]

/-- Setting one key leaves the lookup of every other key unchanged. -/
theorem dictLookup_dictSet_other (l : List (String × PyVal)) (k q : String) (v : PyVal)
    (hq : q ≠ k) : dictLookup (dictSet l k v) q = dictLookup l q := by
  induction l with
  | nil => simp [dictSet, dictLookup, Ne.symm hq]
  | cons p rest ih =>
      obtain ⟨k1, v1⟩ := p
      by_cases hk : k1 = k
      · subst hk
        simp [dictSet, dictLookup, Ne.symm hq]
      · simp [dictSet, hk, dictLookup, ih]

/-- A key outside the key list of a dict looks up to nothing. -/
theorem dictLookup_eq_none_of_not_mem (l : List (String × PyVal)) (k : String)
    (hk : k ∉ l.map Prod.fst) : dictLookup l k = Option.none := by
  induction l with
  | nil => simp [dictLookup]
  | cons p rest ih =>
      obtain ⟨k1, v1⟩ := p
      simp only [List.map_cons, List.mem_cons] at hk
      push_neg at hk
      simp [dictLookup, Ne.symm hk.1, ih hk.2]

/-- Deleting a key of a duplicate-free dict removes it from lookup. -/
theorem dictLookup_dictDel_self (l : List (String × PyVal)) (k : String)
    (hnd : (l.map Prod.fst).Nodup) : dictLookup (dictDel l k) k = Option.none := by
  induction l with
  | nil => simp [dictDel, dictLookup]
  | cons p rest ih =>
      obtain ⟨k1, v1⟩ := p
      simp only [List.map_cons, List.nodup_cons] at hnd
      by_cases hk : k1 = k
      · subst hk
        simpa [dictDel] using dictLookup_eq_none_of_not_mem rest k1 hnd.1
      · simp [dictDel, hk, dictLookup, ih hnd.2]

/-- Deleting one key leaves the lookup of every other key unchanged. -/
theorem dictLookup_dictDel_other (l : List (String × PyVal)) (k q : String)
    (hq : q ≠ k) : dictLookup (dictDel l k) q = dictLookup l q := by
  induction l with
  | nil => simp [dictDel]
  | cons p rest ih =>
      obtain ⟨k1, v1⟩ := p
      by_cases hk : k1 = k
      · subst hk
        simp [dictDel, dictLookup, Ne.symm hq]
      · simp [dictDel, hk, dictLookup, ih]

/-- Reading the modified address sees the modification. -/
theorem heapGet_heapMod_self (h : Heap) (a : Addr) (f : PyObj → PyObj) :
    heapGet (heapMod h a f) a = (heapGet h a).map f := by
  induction h with
  | nil => simp [heapMod, heapGet]
  | cons p rest ih =>
      obtain ⟨a1, o⟩ := p
      by_cases ha : a1 = a
      · simp [heapMod, ha, heapGet]
      · simp [heapMod, ha, heapGet, ih]

/-- Reading any other address does not see the modification. -/
theorem heapGet_heapMod_other (h : Heap) (a a2 : Addr) (f : PyObj → PyObj)
    (ha2 : a2 ≠ a) : heapGet (heapMod h a f) a2 = heapGet h a2 := by
  induction h with
  | nil => simp [heapMod]
  | cons p rest ih =>
      obtain ⟨a1, o⟩ := p
      by_cases ha : a1 = a
      · subst ha
        simp [heapMod, heapGet, Ne.symm ha2]
      · simp [heapMod, ha, heapGet, ih]


/-- Claim C1: for every mapping M, two MappingProxy instances wrapping the
same M are claimed value-equal to each other and to M itself. The code
refutes this: DictWrapper defines no __eq__, so equality is object
identity. At M = the dict at address 0, the two distinct wrap results
(instance ids 0 and 1) compare False, and an instance compares False
against the bare dict; only the identical instance compares True. The
repository's own test test_dict_wrapper_equality asserts the claimed
behavior and fails against this code. -/
theorem claim_C1_eval :
    dwEqDW { id := 0, wrapper := DictWrapper.init 0 false KeyPrefixArg.noneArg true }
        { id := 1, wrapper := DictWrapper.init 0 false KeyPrefixArg.noneArg true } = false ∧
    dwEqOther { id := 0, wrapper := DictWrapper.init 0 false KeyPrefixArg.noneArg true }
        (PyVal.ref 0) = false ∧
    dwEqDW { id := 0, wrapper := DictWrapper.init 0 false KeyPrefixArg.noneArg true }
        { id := 0, wrapper := DictWrapper.init 0 false KeyPrefixArg.noneArg true } = true :=
  ⟨rfl, rfl, rfl⟩

/-- Claim C2 counterexample: over the underlying list L = [a] at address 0,
`proxy += [b]` leaves the heap unchanged — the elements land only in the
proxy instance's own copied storage — so the extension is not observable
through L, refuting the claim that L is extended in place. -/
theorem claim_C2_counterexample :
    (ListWrapper.iadd
        (ListWrapper.init [(0, PyObj.list [PyVal.strV "a"])] 0 false KeyPrefixArg.noneArg true)
        [(0, PyObj.list [PyVal.strV "a"])] [PyVal.strV "b"]).2
      = [(0, PyObj.list [PyVal.strV "a"])] ∧
    ¬ heapListItems
        (ListWrapper.iadd
          (ListWrapper.init [(0, PyObj.list [PyVal.strV "a"])] 0 false KeyPrefixArg.noneArg true)
          [(0, PyObj.list [PyVal.strV "a"])] [PyVal.strV "b"]).2 0
      = [PyVal.strV "a", PyVal.strV "b"] ∧
    (ListWrapper.iadd
        (ListWrapper.init [(0, PyObj.list [PyVal.strV "a"])] 0 false KeyPrefixArg.noneArg true)
        [(0, PyObj.list [PyVal.strV "a"])] [PyVal.strV "b"]).1.selfItems
      = [PyVal.strV "a", PyVal.strV "b"] := by
  refine ⟨rfl, ?_, rfl⟩
  decide

/-- Claim C2 amended: concatenation-assignment on a SequenceProxy extends
the proxy's own internal list storage in place with the extra elements and
leaves the heap — in particular the underlying sequence L — unchanged,
while still referencing L. -/
theorem claim_C2_amended (lw : ListWrapper) (h : Heap) (extra : List PyVal) :
    (ListWrapper.iadd lw h extra).1.selfItems = lw.selfItems ++ extra ∧
    (ListWrapper.iadd lw h extra).2 = h ∧
    (ListWrapper.iadd lw h extra).1.private_data = lw.private_data :=
  ⟨rfl, rfl, rfl⟩

/-- Claim C3: the dict and list dispatch of wrap hold, but at a
non-dict-non-list input (the int 42) wrap does not fail with the
UnsupportedType TypeError: formatting the intended message evaluates
`data.__class__.__name___` (trailing triple underscore), an attribute no
class has, so an AttributeError is raised instead. -/
theorem claim_C3_eval :
    wrap [] (PyVal.intV 42) false KeyPrefixArg.noneArg true
      = Except.error PyErr.nameFormatAttrError ∧
    PyErr.pyClassOf PyErr.nameFormatAttrError = "AttributeError" ∧
    "AttributeError" ≠ "TypeError" ∧
    wrap [(0, PyObj.dict [("k", PyVal.intV 1)]), (1, PyObj.list [PyVal.intV 2])]
        (PyVal.ref 0) false KeyPrefixArg.noneArg true
      = Except.ok (Wrapped.dw (DictWrapper.init 0 false KeyPrefixArg.noneArg true)) ∧
    wrap [(0, PyObj.dict [("k", PyVal.intV 1)]), (1, PyObj.list [PyVal.intV 2])]
        (PyVal.ref 1) false KeyPrefixArg.noneArg true
      = Except.ok (Wrapped.lw (ListWrapper.init
          [(0, PyObj.dict [("k", PyVal.intV 1)]), (1, PyObj.list [PyVal.intV 2])]
          1 false KeyPrefixArg.noneArg true)) := by
  refine ⟨rfl, rfl, ?_, rfl, rfl⟩
  decide

/-- Claim C4: on a default MappingProxy (no key prefixes configured) over
M = the dict with keys Nonename and name, key resolution does not return
the requested name unchanged: __init__ stores the default None argument as
the one-element prefix list [None], whose element percent-s-formats as the
string None, so resolution returns Nonename and the read addresses
M[Nonename] (1) instead of M[name] (2). -/
theorem claim_C4_eval :
    DictWrapper.fix_key (DictWrapper.init 0 false KeyPrefixArg.noneArg true)
        [(0, PyObj.dict [("Nonename", PyVal.intV 1), ("name", PyVal.intV 2)])] "name"
      = "Nonename" ∧
    DictWrapper.getattr (DictWrapper.init 0 false KeyPrefixArg.noneArg true)
        [(0, PyObj.dict [("Nonename", PyVal.intV 1), ("name", PyVal.intV 2)])] "name"
      = Except.ok (RtVal.plain (PyVal.intV 1)) := by
  constructor
  · decide
  · rfl

/-- Claim C5 counterexample: on a strict, mutable proxy over M = the dict
mapping n to the int 1, set(n, True) stores a value whose runtime type
(bool) differs from the stored type (int), yet the operation succeeds and
stores True — the strict check uses isinstance and bool is a subclass of
int — refuting the claim that every differing runtime type fails
TypeMismatch. -/
theorem claim_C5_counterexample :
    PyVal.cls [(0, PyObj.dict [("n", PyVal.intV 1)])] (PyVal.boolV true)
      ≠ PyVal.cls [(0, PyObj.dict [("n", PyVal.intV 1)])] (PyVal.intV 1) ∧
    DictWrapper.setattr (DictWrapper.init 0 true KeyPrefixArg.noneArg true)
        [(0, PyObj.dict [("n", PyVal.intV 1)])] "n" (PyVal.boolV true)
      = Except.ok (DictWrapper.init 0 true KeyPrefixArg.noneArg true,
          [(0, PyObj.dict [("n", PyVal.boolV true)])]) := by
  constructor
  · decide
  · rfl

/-- Claim C7 counterexample: with M = the dict whose sole (present) key is
the string __mutable__ and an immutable proxy over it, set of that key does
not fail Immutable: __setattr__ routes the four internal names to the
instance before the immutability gate, so the write succeeds, reconfigures
the proxy (here making it mutable) and leaves M unchanged — refuting the
claim that set fails Immutable for every present key. -/
theorem claim_C7_counterexample :
    (DictWrapper.init 0 false KeyPrefixArg.noneArg false).mutable = false ∧
    dictLookupAt [(0, PyObj.dict [("__mutable__", PyVal.intV 1)])] 0 "__mutable__"
      = Option.some (PyVal.intV 1) ∧
    DictWrapper.setattr (DictWrapper.init 0 false KeyPrefixArg.noneArg false)
        [(0, PyObj.dict [("__mutable__", PyVal.intV 1)])] "__mutable__" (PyVal.intV 5)
      = Except.ok
          ({ private_data := 0, strict := false, key_prefixes := Option.some ["None"],
             mutable := true },
           [(0, PyObj.dict [("__mutable__", PyVal.intV 1)])]) := by
  refine ⟨rfl, rfl, ?_⟩
  rfl


/-- A child DictWrapper produced by an attribute read carries the parent's
strict and mutable flags unchanged. -/
theorem getattr_dwrap_config (w : DictWrapper) (h : Heap) (key : String) (w2 : DictWrapper)
    (hx : DictWrapper.getattr w h key = Except.ok (RtVal.dwrap w2)) :
    w2.strict = w.strict ∧ w2.mutable = w.mutable := by
  simp only [DictWrapper.getattr] at hx
  split at hx
  · simp at hx
  · split at hx
    · split at hx
      · simp only [Except.ok.injEq, RtVal.dwrap.injEq] at hx
        subst hx
        exact ⟨rfl, rfl⟩
      · simp at hx
      · simp at hx
    · simp at hx

/-- A child ListWrapper produced by an attribute read carries the parent's
strict and mutable flags unchanged. -/
theorem getattr_lwrap_config (w : DictWrapper) (h : Heap) (key : String) (lw : ListWrapper)
    (hx : DictWrapper.getattr w h key = Except.ok (RtVal.lwrap lw)) :
    lw.strict = w.strict ∧ lw.mutable = w.mutable := by
  simp only [DictWrapper.getattr] at hx
  split at hx
  · simp at hx
  · split at hx
    · split at hx
      · simp at hx
      · simp only [Except.ok.injEq, RtVal.lwrap.injEq] at hx
        subst hx
        exact ⟨rfl, rfl⟩
      · simp at hx
    · simp at hx

/-- Claim C5 (amended): on a strict, mutable MappingProxy, for a
non-internal field name that prefix resolution leaves unchanged and that is
present, set(k, v) fails TypeMismatch exactly when v is not an instance of
the stored value's class — so a value of a proper subclass, e.g. a bool
where an int is stored, is accepted — and otherwise succeeds and stores v;
and any child proxy obtained via an attribute read of a strict proxy is
itself strict. -/
theorem claim_C5_amended (h : Heap) (w : DictWrapper) (k : String) (v stored : PyVal)
    (hstrict : w.strict = true) (hmut : w.mutable = true)
    (hint : k ∉ internalNames)
    (hfix : DictWrapper.fix_key w h k = k)
    (hlook : dictLookupAt h w.private_data k = Option.some stored) :
    (isinstance h v (PyVal.cls h stored) = false →
      DictWrapper.setattr w h k v =
        Except.error (PyErr.badValueType k (clsName (PyVal.cls h stored))
          (clsName (PyVal.cls h v)))) ∧
    (isinstance h v (PyVal.cls h stored) = true →
      DictWrapper.setattr w h k v = Except.ok (w, heapDictSet h w.private_data k v)) ∧
    (∀ (key : String) (w2 : DictWrapper),
        DictWrapper.getattr w h key = Except.ok (RtVal.dwrap w2) → w2.strict = true) ∧
    (∀ (key : String) (lw : ListWrapper),
        DictWrapper.getattr w h key = Except.ok (RtVal.lwrap lw) → lw.strict = true) := by
  refine ⟨?_, ?_, ?_, ?_⟩
  · intro hiso
    simp [DictWrapper.setattr, if_neg hint, hmut, hfix, hlook, hstrict, hiso]
  · intro hiso
    simp [DictWrapper.setattr, if_neg hint, hmut, hfix, hlook, hstrict, hiso]
  · intro key w2 hx
    exact (getattr_dwrap_config w h key w2 hx).1.trans hstrict
  · intro key lw hx
    exact (getattr_lwrap_config w h key lw hx).1.trans hstrict

/-- Claim C5 witness: on a strict, mutable proxy over the dict mapping m to
the int 1, setting m to a str fails with the TypeMismatch TypeError. -/
theorem claim_C5_witness :
    DictWrapper.setattr (DictWrapper.init 0 true KeyPrefixArg.noneArg true)
        [(0, PyObj.dict [("m", PyVal.intV 1)])] "m" (PyVal.strV "x")
      = Except.error (PyErr.badValueType "m" "int" "str") :=
  (claim_C5_amended [(0, PyObj.dict [("m", PyVal.intV 1)])]
      (DictWrapper.init 0 true KeyPrefixArg.noneArg true) "m" (PyVal.strV "x")
      (PyVal.intV 1) rfl rfl (by decide) rfl rfl).1 rfl

/-- Claim C7 (amended): on a MappingProxy constructed with mutable false,
set of any present key that is not one of the four internal attribute names
fails with the Immutable AttributeError; the operation raises before any
mutation, so the underlying mapping is unchanged. -/
theorem claim_C7_amended (h : Heap) (w : DictWrapper) (k : String) (v u : PyVal)
    (hmut : w.mutable = false) (hint : k ∉ internalNames)
    (_hpresent : dictLookupAt h w.private_data k = Option.some u) :
    DictWrapper.setattr w h k v = Except.error PyErr.cantSetAttribute := by
  simp [DictWrapper.setattr, if_neg hint, hmut]

/-- Claim C7 witness: an immutable proxy over the dict mapping a to 1
rejects setting the present key a. -/
theorem claim_C7_witness :
    DictWrapper.setattr (DictWrapper.init 0 false KeyPrefixArg.noneArg false)
        [(0, PyObj.dict [("a", PyVal.intV 1)])] "a" (PyVal.strV "z")
      = Except.error PyErr.cantSetAttribute :=
  claim_C7_amended [(0, PyObj.dict [("a", PyVal.intV 1)])]
    (DictWrapper.init 0 false KeyPrefixArg.noneArg false) "a" (PyVal.strV "z")
    (PyVal.intV 1) rfl (by decide) rfl

/-- Claim C8: for every dict or list object M in the heap, unwrapping the
wrap of M yields the very reference M again — wrap stores the reference and
to_dict and to_list return it, no copy at any stage. -/
theorem claim_C8 (h : Heap) (a : Addr) (s : Bool) (kp : KeyPrefixArg) (m : Bool)
    (o : PyObj) (hobj : heapGet h a = Option.some o) :
    (wrap h (PyVal.ref a) s kp m).map (fun wr => unwrap (Wrapped.rt wr))
      = Except.ok (PyVal.ref a) := by
  cases o with
  | dict l =>
      simp [wrap, hobj, Wrapped.rt, unwrap, DictWrapper.to_dict, DictWrapper.init, Except.map]
  | list l =>
      simp [wrap, hobj, Wrapped.rt, unwrap, ListWrapper.to_list, ListWrapper.init, Except.map]

/-- Claim C8 witness: round trip through wrap and unwrap at the empty dict
stored at address 3. -/
theorem claim_C8_witness :
    (wrap [(3, PyObj.dict [])] (PyVal.ref 3) false KeyPrefixArg.noneArg true).map
        (fun wr => unwrap (Wrapped.rt wr))
      = Except.ok (PyVal.ref 3) :=
  claim_C8 [(3, PyObj.dict [])] 3 false KeyPrefixArg.noneArg true (PyObj.dict []) rfl

/-- Claim C9: an attribute write whose name is one of the four internal
names succeeds on every proxy (immutable ones included) and for every
value and heap — no Immutable or NoSuchField check fires, the name need
not be a key of the mapping — it returns the heap unchanged (the underlying
mapping is untouched) and overwrites the proxy's own configuration: the
boolean flags take the truthiness of the value, __private_data__ takes the
assigned reference, and None assigned to __key_prefixes__ clears the
prefix list. -/
theorem claim_C9 (h : Heap) (w : DictWrapper) (a : Addr) (b : Bool) :
    (∀ (name : String) (v : PyVal), name ∈ internalNames →
        DictWrapper.setattr w h name v
          = Except.ok (DictWrapper.assignInternal w h name v, h)) ∧
    DictWrapper.setattr w h "__mutable__" (PyVal.boolV b)
      = Except.ok ({ w with mutable := b }, h) ∧
    DictWrapper.setattr w h "__strict__" (PyVal.boolV b)
      = Except.ok ({ w with strict := b }, h) ∧
    DictWrapper.setattr w h "__private_data__" (PyVal.ref a)
      = Except.ok ({ w with private_data := a }, h) ∧
    DictWrapper.setattr w h "__key_prefixes__" PyVal.noneV
      = Except.ok ({ w with key_prefixes := Option.none }, h) := by
  refine ⟨?_, rfl, rfl, rfl, rfl⟩
  intro name v hmem
  unfold DictWrapper.setattr
  rw [if_pos hmem]

/-- Claim C9 witness: on an immutable proxy over an empty heap (so the name
is certainly not a key of any mapping), writing __strict__ succeeds, leaves
the heap unchanged and sets the strict flag to the truthiness of the
assigned int 7. -/
theorem claim_C9_witness :
    DictWrapper.setattr (DictWrapper.init 0 false KeyPrefixArg.noneArg false)
        [] "__strict__" (PyVal.intV 7)
      = Except.ok
          ({ private_data := 0, strict := true, key_prefixes := Option.some ["None"],
             mutable := false }, []) :=
  (claim_C9 [] (DictWrapper.init 0 false KeyPrefixArg.noneArg false) 0 true).1
    "__strict__" (PyVal.intV 7) (by decide)


/-- Claim C6 counterexample: over M = the dict at address 0 holding only
the key x, the key __mutable__ is absent from M, yet set of it does not
fail NoSuchField: __setattr__ routes the four internal names to the
instance before the existence check, so the write succeeds — here turning
the proxy immutable — and leaves M unchanged, refuting the claim's
universal quantification over every absent key. -/
theorem claim_C6_counterexample :
    dictLookupAt [(0, PyObj.dict [("x", PyVal.intV 1)])] 0 "__mutable__"
      = Option.none ∧
    DictWrapper.setattr (DictWrapper.init 0 false KeyPrefixArg.noneArg true)
        [(0, PyObj.dict [("x", PyVal.intV 1)])] "__mutable__" (PyVal.boolV false)
      = Except.ok
          ({ private_data := 0, strict := false, key_prefixes := Option.some ["None"],
             mutable := false },
           [(0, PyObj.dict [("x", PyVal.intV 1)])]) :=
  ⟨rfl, rfl⟩

/-- Claim C6 (amended): for a field name that prefix resolution leaves
unchanged and that is absent from the underlying mapping, provided the name
is neither one of the four internal instance-attribute names (a write to
those reconfigures the proxy instead of failing) nor one that ordinary
Python attribute lookup finds on the proxy itself (a read of a class
attribute such as to_dict returns the bound method and never reaches
__getattr__): an attribute read fails NoSuchField; an attribute write also
fails NoSuchField, and no successful plain write (of any key) can make the
absent key appear — only add_attribute introduces a new key — after which a
read of the key succeeds and denotes the added value. -/
theorem claim_C6 (h : Heap) (w : DictWrapper) (k : String) (v : PyVal)
    (entries : List (String × PyVal))
    (hint : k ∉ internalNames)
    (_hcls : k ∉ classAttributeNames)
    (hobj : heapGet h w.private_data = Option.some (PyObj.dict entries))
    (hfix : DictWrapper.fix_key w h k = k)
    (habs : dictLookup entries k = Option.none)
    (hmut : w.mutable = true)
    (hfix2 : DictWrapper.fix_key w (add_attribute w h k v) k = k) :
    DictWrapper.getattr w h k = Except.error (PyErr.noAttribute "DictWrapper" k) ∧
    DictWrapper.setattr w h k v = Except.error (PyErr.noAttribute "DictWrapper" k) ∧
    (∀ (k2 : String) (v2 : PyVal) (w2 : DictWrapper) (h2 : Heap),
        DictWrapper.setattr w h k2 v2 = Except.ok (w2, h2) →
        dictLookupAt h2 w.private_data k = Option.none) ∧
    (DictWrapper.getattr w (add_attribute w h k v) k).map RtVal.underlying
      = Except.ok v := by
  have hla : dictLookupAt h w.private_data k = Option.none := by
    simp [dictLookupAt, hobj, habs]
  refine ⟨?_, ?_, ?_, ?_⟩
  · simp [DictWrapper.getattr, hfix, hla]
  · simp [DictWrapper.setattr, if_neg hint, hmut, hfix, hla]
  · intro k2 v2 w2 h2 hset
    by_cases hin : k2 ∈ internalNames
    · unfold DictWrapper.setattr at hset
      rw [if_pos hin] at hset
      simp only [Except.ok.injEq, Prod.mk.injEq] at hset
      rw [← hset.2]
      exact hla
    · simp only [DictWrapper.setattr, if_neg hin] at hset
      rw [hmut, if_neg (by decide : ¬(true = false))] at hset
      split at hset
      · exact absurd hset (by simp)
      · next stored hl =>
          split at hset
          · exact absurd hset (by simp)
          · simp only [Except.ok.injEq, Prod.mk.injEq] at hset
            rw [← hset.2]
            have hkk : ¬ k = DictWrapper.fix_key w h k2 := by
              intro he
              rw [← he, hla] at hl
              exact Option.noConfusion hl
            simp [dictLookupAt, heapDictSet, heapGet_heapMod_self, hobj,
              dictLookup_dictSet_other _ _ _ _ hkk, habs]
  · have hobj2 : heapGet (add_attribute w h k v) w.private_data
        = Option.some (PyObj.dict (dictSet entries k v)) := by
      simp only [add_attribute, heapDictSet]
      rw [heapGet_heapMod_self, hobj]
      rfl
    have hl2 : dictLookupAt (add_attribute w h k v) w.private_data k
        = Option.some v := by
      simp [dictLookupAt, hobj2, dictLookup_dictSet_self]
    simp only [DictWrapper.getattr, hfix2, hl2]
    cases v with
    | ref a =>
        cases hg : heapGet (add_attribute w h k (PyVal.ref a)) a with
        | none => simp [hg, RtVal.underlying, Except.map]
        | some o =>
            cases o with
            | dict l => simp [hg, RtVal.underlying, Except.map, DictWrapper.init]
            | list l => simp [hg, RtVal.underlying, Except.map, ListWrapper.init]
    | noneV => simp [RtVal.underlying, Except.map]
    | boolV b2 => simp [RtVal.underlying, Except.map]
    | intV n => simp [RtVal.underlying, Except.map]
    | strV s2 => simp [RtVal.underlying, Except.map]

/-- Claim C6 witness: over the dict at address 5 with the single key x, the
key y is absent; after add_attribute of y with the int 7, reading y yields 7. -/
theorem claim_C6_witness :
    (DictWrapper.getattr (DictWrapper.init 5 false KeyPrefixArg.noneArg true)
        (add_attribute (DictWrapper.init 5 false KeyPrefixArg.noneArg true)
          [(5, PyObj.dict [("x", PyVal.strV "s")])] "y" (PyVal.intV 7)) "y").map
      RtVal.underlying = Except.ok (PyVal.intV 7) :=
  (claim_C6 [(5, PyObj.dict [("x", PyVal.strV "s")])]
      (DictWrapper.init 5 false KeyPrefixArg.noneArg true) "y" (PyVal.intV 7)
      [("x", PyVal.strV "s")] (by decide) (by decide) rfl rfl rfl rfl rfl).2.2.2

/-- Claim C10: add_attribute and del_attribute act on the literal name with
no key-prefix resolution: add_attribute inserts the name itself into the
underlying mapping and touches no other key (in particular never a prefixed
variant), del_attribute looks up and deletes exactly the name — failing
KeyError when the literal name is absent even if a prefixed variant exists
— while attribute access on the same proxy does resolve a configured
prefix. -/
theorem claim_C10 (h : Heap) (w : DictWrapper) (name : String) (v : PyVal)
    (entries : List (String × PyVal))
    (hobj : heapGet h w.private_data = Option.some (PyObj.dict entries))
    (hnodup : (entries.map Prod.fst).Nodup) :
    dictLookupAt (add_attribute w h name v) w.private_data name = Option.some v ∧
    (∀ q, q ≠ name →
        dictLookupAt (add_attribute w h name v) w.private_data q
          = dictLookup entries q) ∧
    (dictLookup entries name = Option.none →
        del_attribute w h name = Except.error (PyErr.keyError name)) ∧
    (∀ u, dictLookup entries name = Option.some u →
        del_attribute w h name = Except.ok (u, heapDictDel h w.private_data name) ∧
        dictLookupAt (heapDictDel h w.private_data name) w.private_data name
          = Option.none ∧
        (∀ q, q ≠ name →
            dictLookupAt (heapDictDel h w.private_data name) w.private_data q
              = dictLookup entries q)) ∧
    (∀ p ps, w.key_prefixes = Option.some (p :: ps) →
        dictHasKeyAt h w.private_data (p ++ name) = true →
        DictWrapper.fix_key w h name = p ++ name) := by
  have hsets : heapGet (add_attribute w h name v) w.private_data
      = Option.some (PyObj.dict (dictSet entries name v)) := by
    simp only [add_attribute, heapDictSet]
    rw [heapGet_heapMod_self, hobj]
    rfl
  have hdels : heapGet (heapDictDel h w.private_data name) w.private_data
      = Option.some (PyObj.dict (dictDel entries name)) := by
    simp only [heapDictDel]
    rw [heapGet_heapMod_self, hobj]
    rfl
  refine ⟨?_, ?_, ?_, ?_, ?_⟩
  · simp [dictLookupAt, hsets, dictLookup_dictSet_self]
  · intro q hq
    simp [dictLookupAt, hsets, dictLookup_dictSet_other entries name q v hq]
  · intro habs
    simp [del_attribute, dictLookupAt, hobj, habs]
  · intro u hu
    refine ⟨?_, ?_, ?_⟩
    · simp [del_attribute, dictLookupAt, hobj, hu]
    · simp [dictLookupAt, hdels, dictLookup_dictDel_self entries name hnodup]
    · intro q hq
      simp [dictLookupAt, hdels, dictLookup_dictDel_other entries name q hq]
  · intro p ps hps hhas
    simp [DictWrapper.fix_key, hps, fixKeyLoop, hhas]

/-- Claim C10 witness: with prefix list [@] over the dict holding only the
key @x, del_attribute of x fails KeyError on the literal name x even though
attribute resolution on the same proxy resolves x to @x. -/
theorem claim_C10_witness :
    del_attribute (DictWrapper.init 0 false (KeyPrefixArg.strArg "@") true)
        [(0, PyObj.dict [("@x", PyVal.intV 1)])] "x"
      = Except.error (PyErr.keyError "x") ∧
    DictWrapper.fix_key (DictWrapper.init 0 false (KeyPrefixArg.strArg "@") true)
        [(0, PyObj.dict [("@x", PyVal.intV 1)])] "x" = "@x" :=
  ⟨(claim_C10 [(0, PyObj.dict [("@x", PyVal.intV 1)])]
      (DictWrapper.init 0 false (KeyPrefixArg.strArg "@") true) "x" PyVal.noneV
      [("@x", PyVal.intV 1)] rfl (by decide)).2.2.1 rfl,
   (claim_C10 [(0, PyObj.dict [("@x", PyVal.intV 1)])]
      (DictWrapper.init 0 false (KeyPrefixArg.strArg "@") true) "x" PyVal.noneV
      [("@x", PyVal.intV 1)] rfl (by decide)).2.2.2.2 "@" [] rfl rfl⟩

end PyDictWrapper
